import Mathlib

/-!
Verification of the workspace-context switching core of claude-devtools.

The renderer-side switch orchestrator (src/renderer/store/slices/contextSlice.ts),
the SSH and context IPC handlers (src/main/ipc/ssh.ts and the context handler
module) and the last-connection persistence path
(src/renderer/store/slices/connectionSlice.ts) are embedded shallowly below.
Asynchronous collaborator calls (IndexedDB snapshot storage, the backend switch
IPC, the background data fetch, the SSH connection manager) are modelled by
explicit outcome records (`Except String` values), and each zustand `set` call
becomes one state-to-state update; the orchestrator additionally records the
list of intermediate states and log lines it produces.

The backend `ServiceContextRegistry` is not among the provided sources (only
its callers are); it is modelled from the spec where marked.
-/

-- =============================================================================
-- Renderer data model (types used by contextSlice.ts)
-- =============================================================================

/-- Truthiness of a nullable string in JavaScript: null and the empty string are
falsy, every other string is truthy. -/
def truthy : Option String → Bool
  | none => false
  | some s => s != ""

/-- A renderer tab; contextSlice only reads `id`, `type` and `projectId`. -/
structure Tab where
  id : String
  type : String
  projectId : Option String
deriving Repr, DecidableEq

/-- One pane of the pane layout (fields from the literals in contextSlice.ts). -/
structure Pane where
  id : String
  tabs : List Tab
  activeTabId : Option String
  selectedTabIds : List String
  widthFraction : Nat
deriving Repr, DecidableEq

/-- The pane layout: a list of panes plus the focused pane id. -/
structure PaneLayout where
  panes : List Pane
  focusedPaneId : String
deriving Repr, DecidableEq

/-- A project; validateSnapshot only reads its id. -/
structure Project where
  id : String
deriving Repr, DecidableEq

/-- A worktree inside a repository group; validateSnapshot only reads its id. -/
structure Worktree where
  id : String
deriving Repr, DecidableEq

/-- A repository group; validateSnapshot only reads the worktree ids. -/
structure RepositoryGroup where
  worktrees : List Worktree
deriving Repr, DecidableEq

/-- A session record, kept abstract (carried through unchanged by the slice). -/
structure Session where
  id : String
deriving Repr, DecidableEq

/-- A notification record, kept abstract (carried through unchanged). -/
structure Notification where
  id : String
deriving Repr, DecidableEq

/-- Public context listing record, `{ id, type }` in the sources. -/
structure ContextInfo where
  id : String
  kind : String
deriving Repr, DecidableEq

/-- Snapshot metadata attached by captureSnapshot. -/
structure SnapshotMetadata where
  contextId : String
  capturedAt : Nat
  version : Nat
deriving Repr, DecidableEq

/-- A per-context snapshot (the ContextSnapshot shape written and read by
contextSlice.ts). -/
structure ContextSnapshot where
  projects : List Project
  selectedProjectId : Option String
  repositoryGroups : List RepositoryGroup
  selectedRepositoryId : Option String
  selectedWorktreeId : Option String
  viewMode : String
  sessions : List Session
  selectedSessionId : Option String
  sessionsCursor : Option String
  sessionsHasMore : Bool
  sessionsTotalCount : Nat
  pinnedSessionIds : List String
  notifications : List Notification
  unreadCount : Nat
  openTabs : List Tab
  activeTabId : Option String
  selectedTabIds : List String
  activeProjectId : Option String
  paneLayout : PaneLayout
  sidebarCollapsed : Bool
  metadata : SnapshotMetadata
deriving Repr, DecidableEq

/-- The renderer store state, restricted to the fields contextSlice reads or
writes. -/
structure AppState where
  activeContextId : String
  isContextSwitching : Bool
  targetContextId : Option String
  contextSnapshotsReady : Bool
  availableContexts : List ContextInfo
  projects : List Project
  selectedProjectId : Option String
  repositoryGroups : List RepositoryGroup
  selectedRepositoryId : Option String
  selectedWorktreeId : Option String
  viewMode : String
  sessions : List Session
  selectedSessionId : Option String
  sessionsCursor : Option String
  sessionsHasMore : Bool
  sessionsTotalCount : Nat
  pinnedSessionIds : List String
  notifications : List Notification
  unreadCount : Nat
  openTabs : List Tab
  activeTabId : Option String
  selectedTabIds : List String
  activeProjectId : Option String
  paneLayout : PaneLayout
  sidebarCollapsed : Bool
deriving Repr, DecidableEq

-- =============================================================================
-- Helpers of contextSlice.ts
-- =============================================================================

/-- The single default pane used by getEmptyContextState and validateSnapshot. -/
def defaultPane : Pane :=
  { id := "pane-default", tabs := [], activeTabId := none, selectedTabIds := [],
    widthFraction := 1 }

/-- The default pane layout: one default pane, focused. -/
def defaultPaneLayout : PaneLayout :=
  { panes := [defaultPane], focusedPaneId := "pane-default" }

/-- Modelled from the spec: the module stateResetHelpers (getFullResetState) is
not among the provided sources; per the documentation of getEmptyContextState
in contextSlice.ts it resets transient state and nulls the current selections.
Modelled as nulling the selection ids and leaving everything else to the
explicit overrides of its callers. -/
def getFullResetState (s : AppState) : AppState :=
  { s with
    selectedProjectId := none
    selectedRepositoryId := none
    selectedWorktreeId := none
    selectedSessionId := none }

/-- The getEmptyContextState helper of contextSlice.ts: a full reset overridden
with empty arrays, null selections and the single default pane. In TypeScript
it returns a partial state merged by `set`; modelled as the corresponding
state update. -/
def getEmptyContextState (s : AppState) : AppState :=
  let r := getFullResetState s
  { r with
    projects := []
    repositoryGroups := []
    sessions := []
    notifications := []
    unreadCount := 0
    openTabs := []
    activeTabId := none
    selectedTabIds := []
    activeProjectId := none
    paneLayout := defaultPaneLayout }

/-- The project ids considered valid: ids of the freshly fetched projects. -/
def validProjectIdsOf (freshProjects : List Project) : List String :=
  freshProjects.map (·.id)

/-- The worktree ids considered valid: ids of all worktrees of the freshly
fetched repository groups. -/
def validWorktreeIdsOf (freshRepoGroups : List RepositoryGroup) : List String :=
  freshRepoGroups.flatMap (fun rg => rg.worktrees.map (·.id))

/-- The tab filter of validateSnapshot: a session tab with a truthy projectId
is kept only when its project id is a valid project or worktree id; every
other tab is kept. -/
def isValidTab (validProjectIds validWorktreeIds : List String) (tab : Tab) : Bool :=
  match tab.projectId with
  | some pid =>
    if tab.type == "session" && pid != "" then
      validProjectIds.contains pid || validWorktreeIds.contains pid
    else true
  | none => true

/-- The open tabs surviving validation against the fresh lists. -/
def validTabsOf (snapshot : ContextSnapshot) (freshProjects : List Project)
    (freshRepoGroups : List RepositoryGroup) : List Tab :=
  snapshot.openTabs.filter
    (isValidTab (validProjectIdsOf freshProjects) (validWorktreeIdsOf freshRepoGroups))

/-- The active tab reconciliation of validateSnapshot: a truthy active tab id
not retained by any valid tab falls back to the id of the first valid tab, or
null when none remain; otherwise it is kept unchanged. -/
def validatedActiveTabId (snapshot : ContextSnapshot) (freshProjects : List Project)
    (freshRepoGroups : List RepositoryGroup) : Option String :=
  let validTabs := validTabsOf snapshot freshProjects freshRepoGroups
  match snapshot.activeTabId with
  | some a =>
    if a != "" && !(validTabs.any (fun t => t.id == a)) then
      validTabs.head?.map (·.id)
    else some a
  | none => none

/-- The per-pane reconciliation of validateSnapshot: filter each pane to its
valid tabs, repoint the pane active tab, drop stale selections, and remove
panes left without tabs. -/
def validatedPanesOf (snapshot : ContextSnapshot) (freshProjects : List Project)
    (freshRepoGroups : List RepositoryGroup) : List Pane :=
  let validProjectIds := validProjectIdsOf freshProjects
  let validWorktreeIds := validWorktreeIdsOf freshRepoGroups
  (snapshot.paneLayout.panes.map (fun pane =>
    let paneTabs := pane.tabs.filter (isValidTab validProjectIds validWorktreeIds)
    let paneActiveId :=
      match pane.activeTabId with
      | some a =>
        if paneTabs.any (fun t => t.id == a) then some a
        else paneTabs.head?.map (·.id)
      | none => paneTabs.head?.map (·.id)
    { pane with
      tabs := paneTabs
      activeTabId := paneActiveId
      selectedTabIds :=
        pane.selectedTabIds.filter (fun i => paneTabs.any (fun t => t.id == i)) })).filter
    (fun pane => pane.tabs.length != 0)

/-- The at-least-one-pane guarantee of validateSnapshot: the validated panes,
or the single default pane when every pane was removed. -/
def finalPanesOf (snapshot : ContextSnapshot) (freshProjects : List Project)
    (freshRepoGroups : List RepositoryGroup) : List Pane :=
  let validatedPanes := validatedPanesOf snapshot freshProjects freshRepoGroups
  if validatedPanes.isEmpty then [defaultPane] else validatedPanes

/-- The partial state returned by validateSnapshot (exactly the fields of its
return literal in contextSlice.ts). -/
structure ValidatedState where
  projects : List Project
  selectedProjectId : Option String
  repositoryGroups : List RepositoryGroup
  selectedRepositoryId : Option String
  selectedWorktreeId : Option String
  viewMode : String
  sessions : List Session
  selectedSessionId : Option String
  sessionsCursor : Option String
  sessionsHasMore : Bool
  sessionsTotalCount : Nat
  pinnedSessionIds : List String
  notifications : List Notification
  unreadCount : Nat
  openTabs : List Tab
  activeTabId : Option String
  selectedTabIds : List String
  activeProjectId : Option String
  paneLayout : PaneLayout
  sidebarCollapsed : Bool
deriving Repr, DecidableEq

/-- The validateSnapshot helper of contextSlice.ts: reconciles a loaded
snapshot against freshly fetched projects and repository groups. -/
def validateSnapshot (snapshot : ContextSnapshot) (freshProjects : List Project)
    (freshRepoGroups : List RepositoryGroup) : ValidatedState :=
  let validProjectIds := validProjectIdsOf freshProjects
  let validWorktreeIds := validWorktreeIdsOf freshRepoGroups
  let selectedProjectId :=
    match snapshot.selectedProjectId with
    | some p => if p != "" && validProjectIds.contains p then some p else none
    | none => none
  let selectedRepositoryId := snapshot.selectedRepositoryId
  let selectedWorktreeId :=
    match snapshot.selectedWorktreeId with
    | some w => if w != "" && validWorktreeIds.contains w then some w else none
    | none => none
  let validTabs := validTabsOf snapshot freshProjects freshRepoGroups
  let activeTabId := validatedActiveTabId snapshot freshProjects freshRepoGroups
  let finalPanes := finalPanesOf snapshot freshProjects freshRepoGroups
  let focusedPaneId :=
    if finalPanes.any (fun p => p.id == snapshot.paneLayout.focusedPaneId) then
      snapshot.paneLayout.focusedPaneId
    else (finalPanes.headD defaultPane).id
  let activeProjectId :=
    match snapshot.activeProjectId with
    | some ap =>
      if ap != "" && (validProjectIds.contains ap || validWorktreeIds.contains ap) then
        some ap
      else selectedProjectId
    | none => selectedProjectId
  { projects := freshProjects
    selectedProjectId := selectedProjectId
    repositoryGroups := freshRepoGroups
    selectedRepositoryId := selectedRepositoryId
    selectedWorktreeId := selectedWorktreeId
    viewMode := snapshot.viewMode
    sessions := snapshot.sessions
    selectedSessionId := snapshot.selectedSessionId
    sessionsCursor := snapshot.sessionsCursor
    sessionsHasMore := snapshot.sessionsHasMore
    sessionsTotalCount := snapshot.sessionsTotalCount
    pinnedSessionIds := snapshot.pinnedSessionIds
    notifications := snapshot.notifications
    unreadCount := snapshot.unreadCount
    openTabs := validTabs
    activeTabId := activeTabId
    selectedTabIds := snapshot.selectedTabIds.filter (fun i => validTabs.any (fun t => t.id == i))
    activeProjectId := activeProjectId
    paneLayout := { panes := finalPanes, focusedPaneId := focusedPaneId }
    sidebarCollapsed := snapshot.sidebarCollapsed }

/-- Application of the partial state returned by validateSnapshot to the store
(one zustand `set` call). -/
def applyValidated (s : AppState) (v : ValidatedState) : AppState :=
  { s with
    projects := v.projects
    selectedProjectId := v.selectedProjectId
    repositoryGroups := v.repositoryGroups
    selectedRepositoryId := v.selectedRepositoryId
    selectedWorktreeId := v.selectedWorktreeId
    viewMode := v.viewMode
    sessions := v.sessions
    selectedSessionId := v.selectedSessionId
    sessionsCursor := v.sessionsCursor
    sessionsHasMore := v.sessionsHasMore
    sessionsTotalCount := v.sessionsTotalCount
    pinnedSessionIds := v.pinnedSessionIds
    notifications := v.notifications
    unreadCount := v.unreadCount
    openTabs := v.openTabs
    activeTabId := v.activeTabId
    selectedTabIds := v.selectedTabIds
    activeProjectId := v.activeProjectId
    paneLayout := v.paneLayout
    sidebarCollapsed := v.sidebarCollapsed }

/-- The captureSnapshot helper of contextSlice.ts (Date.now passed explicitly). -/
def captureSnapshot (state : AppState) (contextId : String) (now : Nat) : ContextSnapshot :=
  { projects := state.projects
    selectedProjectId := state.selectedProjectId
    repositoryGroups := state.repositoryGroups
    selectedRepositoryId := state.selectedRepositoryId
    selectedWorktreeId := state.selectedWorktreeId
    viewMode := state.viewMode
    sessions := state.sessions
    selectedSessionId := state.selectedSessionId
    sessionsCursor := state.sessionsCursor
    sessionsHasMore := state.sessionsHasMore
    sessionsTotalCount := state.sessionsTotalCount
    pinnedSessionIds := state.pinnedSessionIds
    notifications := state.notifications
    unreadCount := state.unreadCount
    openTabs := state.openTabs
    activeTabId := state.activeTabId
    selectedTabIds := state.selectedTabIds
    activeProjectId := state.activeProjectId
    paneLayout := state.paneLayout
    sidebarCollapsed := state.sidebarCollapsed
    metadata := { contextId := contextId, capturedAt := now, version := 1 } }

-- =============================================================================
-- The switch orchestrator (switchContext of contextSlice.ts)
-- =============================================================================

/-- Outcomes of the asynchronous collaborator calls made by one switchContext
run: snapshot persistence, snapshot load, the backend switch IPC, and the
background authoritative fetch. An `Except.error` models a rejected promise. -/
structure SwitchEnv where
  saveResult : Except String Unit
  loadResult : Except String (Option ContextSnapshot)
  backendSwitchResult : Except String Unit
  fetchResult : Except String (List Project × List RepositoryGroup)
deriving Repr

/-- A console log line emitted during the switch. -/
inductive LogEntry where
  | warn : String → LogEntry
  | logError : String → LogEntry
deriving Repr, DecidableEq

/-- The warning logged when the background fetch returns empty while the
snapshot had data. -/
def keepSnapshotWarning : String :=
  "[contextSlice] Background fetch returned empty but snapshot had data - keeping snapshot"

/-- The error logged when the background data refresh fails. -/
def backgroundRefreshError : String :=
  "[contextSlice] Background data refresh failed:"

/-- The error logged by the outer catch of switchContext. -/
def switchFailedError : String :=
  "[contextSlice] Failed to switch context:"

/-- The combined result of the `Promise.all` of step 1 of switchContext: the
loaded target snapshot when all three calls resolve, the rejection otherwise. -/
def step1Result (env : SwitchEnv) : Except String (Option ContextSnapshot) := do
  let _ ← env.saveResult
  let snap ← env.loadResult
  let _ ← env.backendSwitchResult
  pure snap

/-- The step 2 `set` of switchContext: apply the cached target snapshot and
finalize the switch in the same update. -/
def applyTargetSnapshot (s : AppState) (target : String) (snap : ContextSnapshot) : AppState :=
  { s with
    projects := snap.projects
    repositoryGroups := snap.repositoryGroups
    selectedProjectId := snap.selectedProjectId
    selectedRepositoryId := snap.selectedRepositoryId
    selectedWorktreeId := snap.selectedWorktreeId
    viewMode := snap.viewMode
    sessions := snap.sessions
    selectedSessionId := snap.selectedSessionId
    sessionsCursor := snap.sessionsCursor
    sessionsHasMore := snap.sessionsHasMore
    sessionsTotalCount := snap.sessionsTotalCount
    pinnedSessionIds := snap.pinnedSessionIds
    notifications := snap.notifications
    unreadCount := snap.unreadCount
    openTabs := snap.openTabs
    activeTabId := snap.activeTabId
    selectedTabIds := snap.selectedTabIds
    activeProjectId := snap.activeProjectId
    paneLayout := snap.paneLayout
    sidebarCollapsed := snap.sidebarCollapsed
    activeContextId := target
    isContextSwitching := false
    targetContextId := none }

/-- One run of switchContext, returning the chronological list of states after
each `set` call (empty on the guarded no-op paths) together with the log lines
emitted. Mirrors switchContext of contextSlice.ts: entry guards, the parallel
step 1, the optimistic snapshot apply, the guarded background reconcile, the
first-visit fallbacks, and the outer catch. -/
def switchTrace (state : AppState) (target : String) (env : SwitchEnv) :
    List AppState × List LogEntry :=
  if target = state.activeContextId then ([], [])
  else if state.isContextSwitching then ([], [])
  else
    let s1 := { state with isContextSwitching := true, targetContextId := some target }
    match step1Result env with
    | .error e =>
      ([s1, { s1 with isContextSwitching := false, targetContextId := none }],
        [LogEntry.logError (switchFailedError ++ " " ++ e)])
    | .ok targetSnapshot =>
      match targetSnapshot with
      | some snap =>
        let s2 := applyTargetSnapshot s1 target snap
        match env.fetchResult with
        | .ok (freshProjects, freshRepoGroups) =>
          if (snap.projects.length > 0 ∨ snap.repositoryGroups.length > 0) ∧
              freshProjects.length = 0 ∧ freshRepoGroups.length = 0 then
            ([s1, s2], [LogEntry.warn keepSnapshotWarning])
          else
            ([s1, s2, applyValidated s2 (validateSnapshot snap freshProjects freshRepoGroups)], [])
        | .error e =>
          ([s1, s2], [LogEntry.logError (backgroundRefreshError ++ " " ++ e)])
      | none =>
        match env.fetchResult with
        | .ok (freshProjects, freshRepoGroups) =>
          ([s1,
            { getEmptyContextState s1 with
              projects := freshProjects
              repositoryGroups := freshRepoGroups
              activeContextId := target
              isContextSwitching := false
              targetContextId := none }], [])
        | .error e =>
          ([s1,
            { getEmptyContextState s1 with
              activeContextId := target
              isContextSwitching := false
              targetContextId := none }],
            [LogEntry.logError (backgroundRefreshError ++ " " ++ e)])

/-- The final state and log of one switchContext run (the last state of the
trace, or the unchanged input state on the guarded no-op paths). -/
def switchContext (state : AppState) (target : String) (env : SwitchEnv) :
    AppState × List LogEntry :=
  let r := switchTrace state target env
  (r.1.getLastD state, r.2)

-- =============================================================================
-- Backend registry (spec-modelled) and IPC handlers (ssh.ts, context handlers)
-- =============================================================================

/-- A backend workspace context as seen by the registry: its id and kind. -/
structure RegContext where
  id : String
  kind : String
deriving Repr, DecidableEq

/-- Modelled from the spec: the ServiceContextRegistry implementation is not
among the provided sources (only its callers are). State per section 3 of the
spec: a map of contexts keyed by unique id plus the active context pointer. -/
structure Registry where
  contexts : List RegContext
  activeContextId : String
deriving Repr, DecidableEq

/-- Modelled from the spec: registry membership lookup. -/
def Registry.has (r : Registry) (id : String) : Bool :=
  r.contexts.any (fun c => c.id == id)

/-- Modelled from the spec: register fails with DuplicateContextError when the
id already exists, otherwise adds the context. -/
def Registry.registerContext (r : Registry) (ctx : RegContext) : Except String Registry :=
  if r.has ctx.id then .error "DuplicateContextError"
  else .ok { r with contexts := r.contexts ++ [ctx] }

/-- Modelled from the spec: switch fails with NotFoundError for an unknown id,
otherwise updates the active pointer and returns the previous id and the new
current context. -/
def Registry.switch (r : Registry) (id : String) :
    Except String (String × RegContext × Registry) :=
  match r.contexts.find? (fun c => c.id == id) with
  | some ctx => .ok (r.activeContextId, ctx, { r with activeContextId := id })
  | none => .error "NotFoundError"

/-- Modelled from the spec: destroy fails with PermanentContextError for the
local context, otherwise disposes and removes the context, and repoints the
active pointer to local when the destroyed context was active; an unknown id
fails with NotFoundError (defensive, unreachable under the invariants). -/
def Registry.destroy (r : Registry) (id : String) : Except String Registry :=
  if id == "local" then .error "PermanentContextError"
  else if r.has id then
    let removed : Registry :=
      { r with contexts := r.contexts.filter (fun c => c.id != id) }
    if r.activeContextId == id then .ok { removed with activeContextId := "local" }
    else .ok removed
  else .error "NotFoundError"

/-- Modelled from the spec: the active context id accessor used by the
handlers. -/
def Registry.getActiveContextId (r : Registry) : String :=
  r.activeContextId

/-- Modelled from the spec: getActive fails with NotFoundError only as a
defensive case. -/
def Registry.getActive (r : Registry) : Except String RegContext :=
  match r.contexts.find? (fun c => c.id == r.activeContextId) with
  | some c => .ok c
  | none => .error "NotFoundError"

/-- Modelled from the spec: list returns only id and kind records. -/
def Registry.list (r : Registry) : List ContextInfo :=
  r.contexts.map (fun c => { id := c.id, kind := c.kind })

/-- Registry well-formedness: the permanent local context is present and the
active pointer names a registered context. -/
def RegWf (r : Registry) : Prop :=
  r.has "local" = true ∧ r.has r.activeContextId = true

/-- Observable handler actions on the registry, the transport and the push
event wiring, in call order. -/
inductive RegEvent where
  | transportClosed : RegEvent
  | destroyed : String → RegEvent
  | registered : String → RegEvent
  | started : String → RegEvent
  | switched : String → RegEvent
  | rewired : String → RegEvent
deriving Repr, DecidableEq

/-- The SSH connection status shape returned by the connection manager. -/
structure SshConnectionStatus where
  state : String
  host : Option String
  error : Option String
deriving Repr, DecidableEq

/-- Result shape of testConnection. -/
structure SshTestResult where
  success : Bool
  error : Option String
deriving Repr, DecidableEq

/-- An SSH connection request as sent by the renderer; a password may be
carried for password authentication. -/
structure SshConnectionConfig where
  host : String
  port : Nat
  username : String
  authMethod : String
  privateKeyPath : Option String
  password : Option String
deriving Repr, DecidableEq

/-- Outcomes of the SshConnectionManager collaborator calls made by the
handlers (the manager itself is an external collaborator); an error models a
thrown exception. -/
structure SshCollab where
  connectResult : Except String Unit
  remoteProjectsPath : Option String
  status : SshConnectionStatus
  disconnectResult : Except String Unit
  testResult : Except String SshTestResult
deriving Repr

/-- The JavaScript String.prototype.startsWith test, on the character lists of
the two strings: true when the string begins with the given pattern. -/
def jsStartsWith (s pattern : String) : Bool :=
  s.data.take pattern.data.length == pattern.data

/-- The context id derivation of the SSH_CONNECT handler in ssh.ts. -/
def sshContextId (host : String) : String :=
  "ssh-" ++ host

/-- The SSH_CONNECT handler body of ssh.ts: connect the manager, derive the
context id from the host, destroy a previously registered context with that id
(reconnection case), then construct, register and start the new context,
switch the registry to it and invoke the rewire-only callback. An error is an
exception thrown inside the surrounding try. -/
def sshConnectBody (o : SshCollab) (config : SshConnectionConfig) (reg : Registry) :
    Except String (SshConnectionStatus × Registry × List RegEvent) := do
  let _ ← o.connectResult
  let contextId := sshContextId config.host
  let (reg1, ev1) ←
    if reg.has contextId then do
      let r ← reg.destroy contextId
      pure (r, [RegEvent.destroyed contextId])
    else
      pure (reg, ([] : List RegEvent))
  let sshContext : RegContext := { id := contextId, kind := "ssh" }
  let reg2 ← reg1.registerContext sshContext
  let (_, _, reg3) ← reg2.switch contextId
  pure (o.status, reg3,
    ev1 ++ [RegEvent.registered contextId, RegEvent.started contextId,
            RegEvent.switched contextId, RegEvent.rewired contextId])

/-- The SSH_DISCONNECT handler body of ssh.ts: read the active context id,
close the transport, and only when the active id has the ssh prefix: switch
back to local, destroy that (previously active) context and rewire to the
local context. -/
def sshDisconnectBody (o : SshCollab) (reg : Registry) :
    Except String (SshConnectionStatus × Registry × List RegEvent) := do
  let currentContextId := reg.getActiveContextId
  let isSshContext := jsStartsWith currentContextId "ssh-"
  let _ ← o.disconnectResult
  if isSshContext then do
    let (_, _, reg1) ← reg.switch "local"
    let reg2 ← reg1.destroy currentContextId
    let localContext ← reg2.getActive
    pure (o.status, reg2,
      [RegEvent.transportClosed, RegEvent.switched "local",
       RegEvent.destroyed currentContextId, RegEvent.rewired localContext.id])
  else
    pure (o.status, reg, [RegEvent.transportClosed])

/-- The CONTEXT_LIST handler body. -/
def contextListBody (reg : Registry) : Except String (List ContextInfo) :=
  .ok reg.list

/-- The CONTEXT_GET_ACTIVE handler body. -/
def contextGetActiveBody (reg : Registry) : Except String String :=
  .ok reg.getActiveContextId

/-- The CONTEXT_SWITCH handler body: registry switch, rewire to the new
current context, respond with the requested context id. -/
def contextSwitchBody (reg : Registry) (contextId : String) :
    Except String (String × Registry × List RegEvent) := do
  let (_, current, reg1) ← reg.switch contextId
  pure (contextId, reg1, [RegEvent.switched contextId, RegEvent.rewired current.id])

/-- The SSH_TEST handler body: delegate to testConnection, no state change. -/
def sshTestBody (o : SshCollab) : Except String SshTestResult :=
  o.testResult

-- =============================================================================
-- Control channel response shape
-- =============================================================================

/-- The data payloads of the six control channel operations. -/
inductive ControlData where
  | contexts : List ContextInfo → ControlData
  | activeId : String → ControlData
  | switched : String → ControlData
  | connStatus : SshConnectionStatus → ControlData
  | testOutcome : SshTestResult → ControlData
deriving Repr, DecidableEq

/-- What a control channel call can do at the process boundary: return a
success response, return a failure response, or let an exception escape. -/
inductive ControlOutcome where
  | success : ControlData → ControlOutcome
  | failure : String → ControlOutcome
  | thrown : String → ControlOutcome
deriving Repr, DecidableEq

/-- The six control channel operations of the spec. -/
inductive ControlOp where
  | list : ControlOp
  | getActive : ControlOp
  | switchCtx : String → ControlOp
  | connect : SshConnectionConfig → ControlOp
  | disconnect : ControlOp
  | test : SshConnectionConfig → ControlOp
deriving Repr

/-- The uniform try/catch wrapper every handler uses in part_004 and ssh.ts: a
resolved body becomes a success response, a thrown value becomes a failure
response carrying the message string. -/
def runCaught (body : Except String ControlData) : ControlOutcome :=
  match body with
  | .ok d => .success d
  | .error e => .failure e

/-- Dispatcher over the six control channel operations, each handler being its
body wrapped in the uniform try/catch. -/
def handleControlOp (o : SshCollab) (reg : Registry) : ControlOp → ControlOutcome
  | .list => runCaught ((contextListBody reg).map ControlData.contexts)
  | .getActive => runCaught ((contextGetActiveBody reg).map ControlData.activeId)
  | .switchCtx id => runCaught ((contextSwitchBody reg id).map (fun r => ControlData.switched r.1))
  | .connect cfg => runCaught ((sshConnectBody o cfg reg).map (fun r => ControlData.connStatus r.1))
  | .disconnect => runCaught ((sshDisconnectBody o reg).map (fun r => ControlData.connStatus r.1))
  | .test _ => runCaught ((sshTestBody o).map ControlData.testOutcome)

-- =============================================================================
-- Persisted last-connection record (ssh.ts and connectionSlice.ts)
-- =============================================================================

/-- The SshLastConnection payload as it may arrive over the wire at the
SSH_SAVE_LAST_CONNECTION handler; a password property may be present. -/
structure SshLastConnection where
  host : String
  port : Nat
  username : String
  authMethod : String
  privateKeyPath : Option String
  password : Option String
deriving Repr, DecidableEq

/-- The persisted last-connection record. The TypeScript object literal has no
password property at all; the optional field encodes presence of that
property, so a faithful embedding of the literal always sets it to none. -/
structure SavedLastConnection where
  host : String
  port : Nat
  username : String
  authMethod : String
  privateKeyPath : Option String
  password : Option String
deriving Repr, DecidableEq

/-- The record written by the SSH_SAVE_LAST_CONNECTION handler of ssh.ts:
exactly host, port, username, authMethod and privateKeyPath are copied. -/
def saveLastConnectionRecord (config : SshLastConnection) : SavedLastConnection :=
  { host := config.host
    port := config.port
    username := config.username
    authMethod := config.authMethod
    privateKeyPath := config.privateKeyPath
    password := none }

/-- The saved record built by connectSsh in connectionSlice.ts on a successful
connect, passed to api.ssh.saveLastConnection: the same five fields copied
from the connect request, never the password. -/
def savedConnectionFromConfig (config : SshConnectionConfig) : SavedLastConnection :=
  { host := config.host
    port := config.port
    username := config.username
    authMethod := config.authMethod
    privateKeyPath := config.privateKeyPath
    password := none }

-- =============================================================================
-- Concrete inputs used by witnesses and counterexamples
-- =============================================================================

/-- A concrete renderer state on the local context. -/
def baseState : AppState :=
  { activeContextId := "local"
    isContextSwitching := false
    targetContextId := none
    contextSnapshotsReady := true
    availableContexts := [{ id := "local", kind := "local" }]
    projects := [{ id := "p1" }]
    selectedProjectId := some "p1"
    repositoryGroups := []
    selectedRepositoryId := none
    selectedWorktreeId := none
    viewMode := "dashboard"
    sessions := [{ id := "s1" }]
    selectedSessionId := some "s1"
    sessionsCursor := none
    sessionsHasMore := false
    sessionsTotalCount := 1
    pinnedSessionIds := []
    notifications := []
    unreadCount := 0
    openTabs := []
    activeTabId := none
    selectedTabIds := []
    activeProjectId := some "p1"
    paneLayout := defaultPaneLayout
    sidebarCollapsed := false }

/-- A concrete session tab of the cached snapshot below. -/
def sampleTab : Tab := { id := "t1", type := "session", projectId := some "q1" }

/-- A concrete non-empty cached snapshot for the target context. -/
def baseSnapshot : ContextSnapshot :=
  { projects := [{ id := "q1" }]
    selectedProjectId := some "q1"
    repositoryGroups := []
    selectedRepositoryId := none
    selectedWorktreeId := none
    viewMode := "dashboard"
    sessions := [{ id := "s2" }]
    selectedSessionId := some "s2"
    sessionsCursor := none
    sessionsHasMore := false
    sessionsTotalCount := 1
    pinnedSessionIds := []
    notifications := []
    unreadCount := 0
    openTabs := [sampleTab]
    activeTabId := some "t1"
    selectedTabIds := ["t1"]
    activeProjectId := some "q1"
    paneLayout :=
      { panes := [{ id := "pane-1", tabs := [sampleTab], activeTabId := some "t1",
                    selectedTabIds := [], widthFraction := 1 }]
        focusedPaneId := "pane-1" }
    sidebarCollapsed := false
    metadata := { contextId := "ssh-h", capturedAt := 0, version := 1 } }

/-- Collaborator outcomes: everything resolves and no snapshot is cached. -/
def envOkNoSnap : SwitchEnv :=
  { saveResult := .ok (), loadResult := .ok none, backendSwitchResult := .ok (),
    fetchResult := .ok ([], []) }

/-- Collaborator outcomes: a non-empty snapshot is cached and the background
fetch resolves with empty lists. -/
def envOkSnapEmptyFetch : SwitchEnv :=
  { saveResult := .ok (), loadResult := .ok (some baseSnapshot), backendSwitchResult := .ok (),
    fetchResult := .ok ([], []) }

/-- Collaborator outcomes: no cached snapshot and a failing background fetch. -/
def envNoSnapFetchFails : SwitchEnv :=
  { saveResult := .ok (), loadResult := .ok none, backendSwitchResult := .ok (),
    fetchResult := .error "scan failed" }

/-- A session tab whose id is the empty string (falsy in JavaScript). -/
def cexTab : Tab := { id := "", type := "session", projectId := some "q1" }

/-- A snapshot whose active tab has the empty string as id and references a
project absent from the fresh lists. -/
def cexSnapshot : ContextSnapshot :=
  { projects := [{ id := "q1" }]
    selectedProjectId := none
    repositoryGroups := []
    selectedRepositoryId := none
    selectedWorktreeId := none
    viewMode := "dashboard"
    sessions := []
    selectedSessionId := none
    sessionsCursor := none
    sessionsHasMore := false
    sessionsTotalCount := 0
    pinnedSessionIds := []
    notifications := []
    unreadCount := 0
    openTabs := [cexTab]
    activeTabId := some ""
    selectedTabIds := []
    activeProjectId := none
    paneLayout :=
      { panes := [{ id := "pane-1", tabs := [cexTab], activeTabId := some "",
                    selectedTabIds := [], widthFraction := 1 }]
        focusedPaneId := "pane-1" }
    sidebarCollapsed := false
    metadata := { contextId := "ssh-h", capturedAt := 0, version := 1 } }

/-- A session tab referencing a project that no longer exists. -/
def wTabA : Tab := { id := "t1", type := "session", projectId := some "gone" }

/-- A dashboard tab that survives every validation. -/
def wTabB : Tab := { id := "t2", type := "dashboard", projectId := none }

/-- A snapshot whose active tab t1 is dropped by validation while t2 remains. -/
def wSnapshot : ContextSnapshot :=
  { projects := []
    selectedProjectId := none
    repositoryGroups := []
    selectedRepositoryId := none
    selectedWorktreeId := none
    viewMode := "dashboard"
    sessions := []
    selectedSessionId := none
    sessionsCursor := none
    sessionsHasMore := false
    sessionsTotalCount := 0
    pinnedSessionIds := []
    notifications := []
    unreadCount := 0
    openTabs := [wTabA, wTabB]
    activeTabId := some "t1"
    selectedTabIds := []
    activeProjectId := none
    paneLayout :=
      { panes := [{ id := "pane-1", tabs := [wTabA, wTabB], activeTabId := some "t1",
                    selectedTabIds := [], widthFraction := 1 }]
        focusedPaneId := "pane-1" }
    sidebarCollapsed := false
    metadata := { contextId := "ssh-h", capturedAt := 0, version := 1 } }

/-- A registry whose active context is the ssh context of host a while the
transport is connected to host b. -/
def cexRegistry : Registry :=
  { contexts := [{ id := "local", kind := "local" }, { id := "ssh-a", kind := "ssh" },
                 { id := "ssh-b", kind := "ssh" }]
    activeContextId := "ssh-a" }

/-- Connection manager outcomes for the disconnect counterexample. -/
def cexCollab : SshCollab :=
  { connectResult := .ok (), remoteProjectsPath := none
    status := { state := "disconnected", host := none, error := none }
    disconnectResult := .ok ()
    testResult := .ok { success := true, error := none } }

/-- A concrete connect request to host h, carrying a password. -/
def wConfig : SshConnectionConfig :=
  { host := "h", port := 22, username := "u", authMethod := "password",
    privateKeyPath := none, password := some "secret" }

/-- A registry already holding a live context for host h (reconnection case). -/
def wRegistry : Registry :=
  { contexts := [{ id := "local", kind := "local" }, { id := "ssh-h", kind := "ssh" }]
    activeContextId := "ssh-h" }

/-- Connection manager outcomes where everything succeeds. -/
def wCollab : SshCollab :=
  { connectResult := .ok (), remoteProjectsPath := some "/home/u/.claude/projects"
    status := { state := "connected", host := some "h", error := none }
    disconnectResult := .ok ()
    testResult := .ok { success := true, error := none } }

-- =============================================================================
-- Helper lemmas
-- =============================================================================

/-- Prepending the ssh prefix never yields the local context id. -/
theorem sshContextId_ne_local (host : String) : sshContextId host ≠ "local" := by
  intro h
  have hd := congrArg String.data h
  simp only [sshContextId] at hd
  rw [String.data_append] at hd
  simp at hd

/-- After removing every context with a given id, no context with that id
remains. -/
theorem filter_ne_any_eq_false (l : List RegContext) (id : String) :
    ((l.filter (fun c => c.id != id)).any (fun c => c.id == id)) = false := by
  rw [List.any_eq_false]
  intro c hc
  have h := (List.mem_filter.mp hc).2
  simp only [bne_iff_ne, ne_eq] at h
  simp [h]

/-- A registered id is found by the registry lookup, and the found context
carries that id. -/
theorem find_of_has {r : Registry} {id : String} (h : r.has id = true) :
    ∃ c, r.contexts.find? (fun x => x.id == id) = some c ∧ c.id = id := by
  rw [Registry.has, List.any_eq_true] at h
  obtain ⟨c, hc, hp⟩ := h
  have hs : (r.contexts.find? (fun x => x.id == id)).isSome :=
    List.find?_isSome.mpr ⟨c, hc, hp⟩
  obtain ⟨c2, hc2⟩ := Option.isSome_iff_exists.mp hs
  refine ⟨c2, hc2, ?_⟩
  simpa using List.find?_some hc2

/-- Destroying a registered non-local context succeeds and removes every
context with that id. -/
theorem destroy_ok {r : Registry} {id : String} (hid : id ≠ "local") (hhas : r.has id = true) :
    ∃ r1, r.destroy id = .ok r1 ∧
      r1.contexts = r.contexts.filter (fun c => c.id != id) := by
  unfold Registry.destroy
  rw [if_neg (by simp [hid])]
  rw [if_pos hhas]
  by_cases hact : r.activeContextId == id
  · rw [if_pos hact]; exact ⟨_, rfl, rfl⟩
  · rw [if_neg hact]; exact ⟨_, rfl, rfl⟩

/-- The uniform try/catch wrapper only ever yields a success or a failure
response. -/
theorem runCaught_shape (body : Except String ControlData) :
    (∃ d, runCaught body = .success d) ∨ (∃ e, runCaught body = .failure e) := by
  cases body with
  | ok d => exact Or.inl ⟨d, rfl⟩
  | error e => exact Or.inr ⟨e, rfl⟩

-- =============================================================================
-- Claim theorems
-- =============================================================================

/-- C1: every switchContext invocation that passes the entry guards settles
with the switching flag cleared and the target id nulled, for every outcome of
snapshot persistence, snapshot load, the backend switch call and the
background fetch (resolved, empty or rejected) - no path leaves the
orchestrator stuck in the switching state. -/
theorem switchContext_clears_switching_on_all_paths (s : AppState) (target : String)
    (env : SwitchEnv) (hne : target ≠ s.activeContextId) (hsw : s.isContextSwitching = false) :
    (switchContext s target env).1.isContextSwitching = false ∧
    (switchContext s target env).1.targetContextId = none := by
  obtain ⟨sv, ld, bs, ft⟩ := env
  rcases sv with e1 | u1 <;> rcases ld with e2 | osnap <;> rcases bs with e3 | u3 <;>
    rcases ft with e4 | ⟨fp, frg⟩
  all_goals try rcases osnap with _ | snap
  all_goals
    simp [switchContext, switchTrace, step1Result, applyTargetSnapshot, applyValidated,
      getEmptyContextState, getFullResetState, hne, hsw, Bind.bind, Except.bind,
      Pure.pure, Except.pure]
  all_goals try (split <;> simp)

/-- C1 witness: the theorem applied at a concrete state, target and
environment. -/
theorem switchContext_clears_switching_witness :
    (switchContext baseState "ssh-h" envOkNoSnap).1.isContextSwitching = false ∧
    (switchContext baseState "ssh-h" envOkNoSnap).1.targetContextId = none :=
  switchContext_clears_switching_on_all_paths baseState "ssh-h" envOkNoSnap (by decide) rfl

/-- C2: a switchContext call made while a previous switch is in progress is a
no-op: it returns with the state unchanged and logs nothing, so of two
overlapping switches only the first proceeds. -/
theorem switchContext_reentrant_noop (s : AppState) (target : String) (env : SwitchEnv)
    (h : s.isContextSwitching = true) :
    switchContext s target env = (s, []) := by
  have htrace : switchTrace s target env = ([], []) := by
    unfold switchTrace
    rcases eq_or_ne target s.activeContextId with he | he
    · simp [he]
    · simp [he, h]
  simp [switchContext, htrace]

/-- C2 witness: the theorem applied at a concrete mid-switch state. -/
theorem switchContext_reentrant_noop_witness :
    switchContext { baseState with isContextSwitching := true } "ssh-h" envOkNoSnap =
      ({ baseState with isContextSwitching := true }, []) :=
  switchContext_reentrant_noop { baseState with isContextSwitching := true } "ssh-h"
    envOkNoSnap rfl

/-- C3: when a cached snapshot with data exists for the target and the
background fetch returns empty projects and empty repository groups, the final
state keeps the snapshot data, the switch is finalized to the target, and the
keep-snapshot warning is logged. -/
theorem switchContext_keeps_snapshot_on_empty_fetch (s : AppState) (target : String)
    (env : SwitchEnv) (snap : ContextSnapshot)
    (hne : target ≠ s.activeContextId) (hsw : s.isContextSwitching = false)
    (hsave : env.saveResult = .ok ()) (hbs : env.backendSwitchResult = .ok ())
    (hload : env.loadResult = .ok (some snap))
    (hdata : snap.projects ≠ [] ∨ snap.repositoryGroups ≠ [])
    (hfetch : env.fetchResult = .ok ([], [])) :
    (switchContext s target env).1.projects = snap.projects ∧
    (switchContext s target env).1.repositoryGroups = snap.repositoryGroups ∧
    (switchContext s target env).1.sessions = snap.sessions ∧
    (switchContext s target env).1.openTabs = snap.openTabs ∧
    (switchContext s target env).1.paneLayout = snap.paneLayout ∧
    (switchContext s target env).1.activeContextId = target ∧
    (switchContext s target env).1.isContextSwitching = false ∧
    LogEntry.warn keepSnapshotWarning ∈ (switchContext s target env).2 := by
  have h1 : snap.projects.length > 0 ∨ snap.repositoryGroups.length > 0 := by
    rcases hdata with h | h
    · exact Or.inl (List.length_pos.mpr h)
    · exact Or.inr (List.length_pos.mpr h)
  simp [switchContext, switchTrace, step1Result, applyTargetSnapshot, hne, hsw, hsave, hbs,
    hload, hfetch, h1, Bind.bind, Except.bind, Pure.pure, Except.pure]

/-- C3 witness: the theorem applied at a concrete state, non-empty snapshot
and empty fetch result. -/
theorem switchContext_keeps_snapshot_witness :
    (switchContext baseState "ssh-h" envOkSnapEmptyFetch).1.projects = baseSnapshot.projects ∧
    (switchContext baseState "ssh-h" envOkSnapEmptyFetch).1.repositoryGroups =
      baseSnapshot.repositoryGroups ∧
    (switchContext baseState "ssh-h" envOkSnapEmptyFetch).1.sessions = baseSnapshot.sessions ∧
    (switchContext baseState "ssh-h" envOkSnapEmptyFetch).1.openTabs = baseSnapshot.openTabs ∧
    (switchContext baseState "ssh-h" envOkSnapEmptyFetch).1.paneLayout = baseSnapshot.paneLayout ∧
    (switchContext baseState "ssh-h" envOkSnapEmptyFetch).1.activeContextId = "ssh-h" ∧
    (switchContext baseState "ssh-h" envOkSnapEmptyFetch).1.isContextSwitching = false ∧
    LogEntry.warn keepSnapshotWarning ∈ (switchContext baseState "ssh-h" envOkSnapEmptyFetch).2 :=
  switchContext_keeps_snapshot_on_empty_fetch baseState "ssh-h" envOkSnapEmptyFetch baseSnapshot
    (by decide) rfl rfl rfl rfl (Or.inl (by decide)) rfl

/-- C4: a first visit (no cached snapshot) whose background fetch fails still
finalizes the switch: switching flag cleared, active id set to the target, and
the valid empty context state applied (empty lists, null selections, the
single default pane). -/
theorem switchContext_first_visit_fetch_failure (s : AppState) (target : String)
    (env : SwitchEnv) (e : String)
    (hne : target ≠ s.activeContextId) (hsw : s.isContextSwitching = false)
    (hsave : env.saveResult = .ok ()) (hbs : env.backendSwitchResult = .ok ())
    (hload : env.loadResult = .ok none) (hfetch : env.fetchResult = .error e) :
    (switchContext s target env).1.isContextSwitching = false ∧
    (switchContext s target env).1.targetContextId = none ∧
    (switchContext s target env).1.activeContextId = target ∧
    (switchContext s target env).1.projects = [] ∧
    (switchContext s target env).1.repositoryGroups = [] ∧
    (switchContext s target env).1.sessions = [] ∧
    (switchContext s target env).1.notifications = [] ∧
    (switchContext s target env).1.unreadCount = 0 ∧
    (switchContext s target env).1.openTabs = [] ∧
    (switchContext s target env).1.activeTabId = none ∧
    (switchContext s target env).1.selectedTabIds = [] ∧
    (switchContext s target env).1.selectedProjectId = none ∧
    (switchContext s target env).1.selectedRepositoryId = none ∧
    (switchContext s target env).1.selectedWorktreeId = none ∧
    (switchContext s target env).1.selectedSessionId = none ∧
    (switchContext s target env).1.activeProjectId = none ∧
    (switchContext s target env).1.paneLayout = defaultPaneLayout := by
  simp [switchContext, switchTrace, step1Result, getEmptyContextState, getFullResetState,
    hne, hsw, hsave, hbs, hload, hfetch, Bind.bind, Except.bind, Pure.pure, Except.pure]

/-- C4 witness: the theorem applied at a concrete state with a failing fetch
and no cached snapshot. -/
theorem switchContext_first_visit_fetch_failure_witness :
    (switchContext baseState "ssh-h" envNoSnapFetchFails).1.isContextSwitching = false ∧
    (switchContext baseState "ssh-h" envNoSnapFetchFails).1.targetContextId = none ∧
    (switchContext baseState "ssh-h" envNoSnapFetchFails).1.activeContextId = "ssh-h" ∧
    (switchContext baseState "ssh-h" envNoSnapFetchFails).1.projects = [] ∧
    (switchContext baseState "ssh-h" envNoSnapFetchFails).1.repositoryGroups = [] ∧
    (switchContext baseState "ssh-h" envNoSnapFetchFails).1.sessions = [] ∧
    (switchContext baseState "ssh-h" envNoSnapFetchFails).1.notifications = [] ∧
    (switchContext baseState "ssh-h" envNoSnapFetchFails).1.unreadCount = 0 ∧
    (switchContext baseState "ssh-h" envNoSnapFetchFails).1.openTabs = [] ∧
    (switchContext baseState "ssh-h" envNoSnapFetchFails).1.activeTabId = none ∧
    (switchContext baseState "ssh-h" envNoSnapFetchFails).1.selectedTabIds = [] ∧
    (switchContext baseState "ssh-h" envNoSnapFetchFails).1.selectedProjectId = none ∧
    (switchContext baseState "ssh-h" envNoSnapFetchFails).1.selectedRepositoryId = none ∧
    (switchContext baseState "ssh-h" envNoSnapFetchFails).1.selectedWorktreeId = none ∧
    (switchContext baseState "ssh-h" envNoSnapFetchFails).1.selectedSessionId = none ∧
    (switchContext baseState "ssh-h" envNoSnapFetchFails).1.activeProjectId = none ∧
    (switchContext baseState "ssh-h" envNoSnapFetchFails).1.paneLayout = defaultPaneLayout :=
  switchContext_first_visit_fetch_failure baseState "ssh-h" envNoSnapFetchFails "scan failed"
    (by decide) rfl rfl rfl rfl rfl

/-- C5 counterexample: the claim fails as stated. The snapshot below has its
active tab id equal to the empty string; that tab is dropped by validation
(no valid tab remains), yet the returned active tab id is kept as the empty
string instead of falling back to null, because the empty string is falsy in
the JavaScript guard of validateSnapshot. -/
theorem validateSnapshot_active_tab_fallback_cex :
    cexSnapshot.activeTabId = some "" ∧
    cexSnapshot.openTabs.map (fun t => t.id) = [""] ∧
    validTabsOf cexSnapshot [] [] = [] ∧
    (validateSnapshot cexSnapshot [] []).activeTabId = some "" ∧
    (validateSnapshot cexSnapshot [] []).activeTabId ≠
      ((validTabsOf cexSnapshot [] []).head?.map (fun t => t.id)) := by
  refine ⟨rfl, rfl, rfl, rfl, ?_⟩
  decide

/-- C5 amended: for every snapshot and fresh lists, validateSnapshot returns a
pane layout containing at least one pane; and whenever the snapshot has a
non-empty active tab id retained by no valid tab (in particular when the
active tab was dropped during validation), the returned active tab id falls
back to the first remaining valid tab, or null if none remain. -/
theorem validateSnapshot_pane_invariant_and_active_tab_fallback
    (snapshot : ContextSnapshot) (freshProjects : List Project)
    (freshRepoGroups : List RepositoryGroup) :
    1 ≤ (validateSnapshot snapshot freshProjects freshRepoGroups).paneLayout.panes.length ∧
    (∀ a, snapshot.activeTabId = some a → a ≠ "" →
      (validTabsOf snapshot freshProjects freshRepoGroups).any (fun t => t.id == a) = false →
      (validateSnapshot snapshot freshProjects freshRepoGroups).activeTabId =
        (validTabsOf snapshot freshProjects freshRepoGroups).head?.map (fun t => t.id)) := by
  constructor
  · have h : (validateSnapshot snapshot freshProjects freshRepoGroups).paneLayout.panes =
        finalPanesOf snapshot freshProjects freshRepoGroups := rfl
    rw [h]
    simp only [finalPanesOf]
    split
    · simp
    · next hns =>
      rcases hemp : validatedPanesOf snapshot freshProjects freshRepoGroups with _ | ⟨p, ps⟩
      · rw [hemp] at hns; simp at hns
      · simp
  · intro a ha hne hdrop
    have h : (validateSnapshot snapshot freshProjects freshRepoGroups).activeTabId =
        validatedActiveTabId snapshot freshProjects freshRepoGroups := rfl
    rw [h]
    unfold validatedActiveTabId
    rw [ha]
    simp [hdrop, hne]

/-- C5 witness: the amended theorem applied at a concrete snapshot whose
active tab t1 is dropped while the dashboard tab t2 survives: the pane layout
is non-empty and the active tab falls back to t2. -/
theorem validateSnapshot_pane_invariant_witness :
    1 ≤ (validateSnapshot wSnapshot [] []).paneLayout.panes.length ∧
    (validateSnapshot wSnapshot [] []).activeTabId =
      ((validTabsOf wSnapshot [] []).head?.map (fun t => t.id)) :=
  ⟨(validateSnapshot_pane_invariant_and_active_tab_fallback wSnapshot [] []).1,
   (validateSnapshot_pane_invariant_and_active_tab_fallback wSnapshot [] []).2 "t1" rfl
     (by decide) (by decide)⟩

/-- C6 counterexample: the claim fails as stated, because the connect handler
derives the context id with the ssh prefix, not the remote prefix named by the
claim: for host h the derived id is ssh-h, which differs from remote-h. -/
theorem sshContextId_not_remote_cex :
    sshContextId "h" = "ssh-h" ∧ sshContextId "h" ≠ "remote-h" :=
  ⟨rfl, by decide⟩

/-- C6 amended: on every successful remote connect the context id is derived
deterministically from the host alone as ssh dash host; when a context with
that id is already registered it is destroyed before the new context is
registered and started, after which the registry switches to it and the
rewire-only callback runs; the final registry holds exactly one context with
that id and it is active - never two live contexts for the same host. -/
theorem sshConnect_reconnect_single_live_context (o : SshCollab)
    (config : SshConnectionConfig) (reg : Registry) (hconn : o.connectResult = .ok ()) :
    ∃ regFinal,
      sshConnectBody o config reg =
        .ok (o.status, regFinal,
          (if reg.has (sshContextId config.host) then
              [RegEvent.destroyed (sshContextId config.host)]
            else []) ++
          [RegEvent.registered (sshContextId config.host),
           RegEvent.started (sshContextId config.host),
           RegEvent.switched (sshContextId config.host),
           RegEvent.rewired (sshContextId config.host)]) ∧
      regFinal.activeContextId = sshContextId config.host ∧
      (regFinal.contexts.filter (fun c => c.id == sshContextId config.host)).length = 1 := by
  have hnl := sshContextId_ne_local config.host
  by_cases hhas : reg.has (sshContextId config.host) = true
  · obtain ⟨reg1, hdest, hctx⟩ := destroy_ok hnl hhas
    have hreg1has : reg1.has (sshContextId config.host) = false := by
      rw [Registry.has, hctx]; exact filter_ne_any_eq_false _ _
    have hreg2 : reg1.registerContext ⟨sshContextId config.host, "ssh"⟩ =
        .ok { reg1 with contexts := reg1.contexts ++ [⟨sshContextId config.host, "ssh"⟩] } := by
      unfold Registry.registerContext
      rw [if_neg (by simp [hreg1has])]
    have hnone : reg1.contexts.find? (fun c => c.id == sshContextId config.host) = none := by
      rw [List.find?_eq_none]
      intro x hx
      rw [Registry.has] at hreg1has
      exact List.any_eq_false.mp hreg1has x hx
    have hfind : (reg1.contexts ++ [(⟨sshContextId config.host, "ssh"⟩ : RegContext)]).find?
        (fun c => c.id == sshContextId config.host) = some ⟨sshContextId config.host, "ssh"⟩ := by
      rw [List.find?_append, hnone]
      simp [List.find?]
    refine ⟨{ contexts := reg1.contexts ++ [⟨sshContextId config.host, "ssh"⟩],
              activeContextId := sshContextId config.host }, ?_, rfl, ?_⟩
    · unfold sshConnectBody
      rw [hconn]
      simp only [hhas, if_true, Bind.bind, Except.bind, Pure.pure, Except.pure, hdest, hreg2]
      unfold Registry.switch
      simp only [hfind]
    · rw [List.filter_append]
      have h1 : reg1.contexts.filter (fun c => c.id == sshContextId config.host) = [] := by
        rw [List.filter_eq_nil_iff]
        intro c hc
        rw [Registry.has] at hreg1has
        exact List.any_eq_false.mp hreg1has c hc
      rw [h1]
      simp [List.filter]
  · have hhasF : reg.has (sshContextId config.host) = false := by
      simpa using hhas
    have hreg2 : reg.registerContext ⟨sshContextId config.host, "ssh"⟩ =
        .ok { reg with contexts := reg.contexts ++ [⟨sshContextId config.host, "ssh"⟩] } := by
      unfold Registry.registerContext
      rw [if_neg (by simp [hhasF])]
    have hnone : reg.contexts.find? (fun c => c.id == sshContextId config.host) = none := by
      rw [List.find?_eq_none]
      intro x hx
      rw [Registry.has] at hhasF
      exact List.any_eq_false.mp hhasF x hx
    have hfind : (reg.contexts ++ [(⟨sshContextId config.host, "ssh"⟩ : RegContext)]).find?
        (fun c => c.id == sshContextId config.host) = some ⟨sshContextId config.host, "ssh"⟩ := by
      rw [List.find?_append, hnone]
      simp [List.find?]
    refine ⟨{ contexts := reg.contexts ++ [⟨sshContextId config.host, "ssh"⟩],
              activeContextId := sshContextId config.host }, ?_, rfl, ?_⟩
    · unfold sshConnectBody
      rw [hconn]
      simp only [hhasF, Bool.false_eq_true, if_false, Bind.bind, Except.bind, Pure.pure,
        Except.pure, hreg2]
      unfold Registry.switch
      simp only [hfind]
    · rw [List.filter_append]
      have h1 : reg.contexts.filter (fun c => c.id == sshContextId config.host) = [] := by
        rw [List.filter_eq_nil_iff]
        intro c hc
        rw [Registry.has] at hhasF
        exact List.any_eq_false.mp hhasF c hc
      rw [h1]
      simp [List.filter]

/-- C6 witness: the amended theorem applied at a concrete reconnect to host h
while a context ssh-h is already registered. -/
theorem sshConnect_reconnect_witness :
    ∃ regFinal,
      sshConnectBody wCollab wConfig wRegistry =
        .ok (wCollab.status, regFinal,
          (if wRegistry.has (sshContextId wConfig.host) then
              [RegEvent.destroyed (sshContextId wConfig.host)]
            else []) ++
          [RegEvent.registered (sshContextId wConfig.host),
           RegEvent.started (sshContextId wConfig.host),
           RegEvent.switched (sshContextId wConfig.host),
           RegEvent.rewired (sshContextId wConfig.host)]) ∧
      regFinal.activeContextId = sshContextId wConfig.host ∧
      (regFinal.contexts.filter (fun c => c.id == sshContextId wConfig.host)).length = 1 :=
  sshConnect_reconnect_single_live_context wCollab wConfig wRegistry rfl

/-- C7 counterexample: the claim fails as stated. In the registry below the
active context is ssh-a while the transport being disconnected belongs to host
b, whose context ssh-b is registered but not active. The claim predicts that
only the transport is closed; the handler nevertheless switches to local,
destroys ssh-a and rewires, because its condition tests the active id prefix,
not whether the disconnected context is active. -/
theorem sshDisconnect_inactive_disconnected_cex :
    sshContextId "b" ≠ cexRegistry.activeContextId ∧
    cexRegistry.has (sshContextId "b") = true ∧
    sshDisconnectBody cexCollab cexRegistry =
      .ok (cexCollab.status,
        { contexts := [{ id := "local", kind := "local" }, { id := "ssh-b", kind := "ssh" }],
          activeContextId := "local" },
        [RegEvent.transportClosed, RegEvent.switched "local",
         RegEvent.destroyed "ssh-a", RegEvent.rewired "local"]) := by
  refine ⟨by decide, by decide, ?_⟩
  rfl

/-- C7 amended: on every disconnect request the transport is closed first;
when the currently active context id starts with the ssh prefix, the handler
then calls switch to local before destroying that active context id, in that
order, and rewires events to the local context; when the active context is not
an ssh context, only the transport is closed and the registry is untouched.
The condition is the active id prefix, not whether the disconnected context
was the active one. -/
theorem sshDisconnect_routes_on_active_prefix (o : SshCollab) (reg : Registry)
    (hd : o.disconnectResult = .ok ())
    (hlocal : reg.has "local" = true) (hactive : reg.has reg.activeContextId = true) :
    (jsStartsWith reg.activeContextId "ssh-" = true →
      ∃ reg2, sshDisconnectBody o reg =
          .ok (o.status, reg2,
            [RegEvent.transportClosed, RegEvent.switched "local",
             RegEvent.destroyed reg.activeContextId, RegEvent.rewired "local"]) ∧
        reg2.activeContextId = "local" ∧
        reg2.has reg.activeContextId = false) ∧
    (jsStartsWith reg.activeContextId "ssh-" = false →
      sshDisconnectBody o reg = .ok (o.status, reg, [RegEvent.transportClosed])) := by
  constructor
  · intro hssh
    have hnl : reg.activeContextId ≠ "local" := by
      intro heq
      rw [heq] at hssh
      exact absurd hssh (by decide)
    obtain ⟨c, hc, hcid⟩ := find_of_has hlocal
    have hcmem : c ∈ reg.contexts := List.mem_of_find?_eq_some hc
    have hswitch : reg.switch "local" =
        .ok (reg.activeContextId, c, { reg with activeContextId := "local" }) := by
      unfold Registry.switch
      rw [hc]
    have hr1has : Registry.has { reg with activeContextId := "local" } reg.activeContextId
        = true := hactive
    have hdest : Registry.destroy { reg with activeContextId := "local" } reg.activeContextId =
        .ok { contexts := reg.contexts.filter (fun x => x.id != reg.activeContextId),
              activeContextId := "local" } := by
      unfold Registry.destroy
      rw [if_neg (by simp [hnl])]
      rw [if_pos hr1has]
      rw [if_neg (by simp [Ne.symm hnl])]
    have hmem2 : c ∈ reg.contexts.filter (fun x => x.id != reg.activeContextId) := by
      refine List.mem_filter.mpr ⟨hcmem, ?_⟩
      rw [hcid]
      simp [bne_iff_ne]
      exact Ne.symm hnl
    have hsome : ((reg.contexts.filter (fun x => x.id != reg.activeContextId)).find?
        (fun x => x.id == "local")).isSome :=
      List.find?_isSome.mpr ⟨c, hmem2, by simp [hcid]⟩
    obtain ⟨c2, hc2⟩ := Option.isSome_iff_exists.mp hsome
    have hc2id : c2.id = "local" := by simpa using List.find?_some hc2
    have hgetActive : Registry.getActive
        { contexts := reg.contexts.filter (fun x => x.id != reg.activeContextId),
          activeContextId := "local" } = .ok c2 := by
      unfold Registry.getActive
      rw [hc2]
    refine ⟨{ contexts := reg.contexts.filter (fun x => x.id != reg.activeContextId),
              activeContextId := "local" }, ?_, rfl, ?_⟩
    · unfold sshDisconnectBody
      rw [hd]
      simp only [Registry.getActiveContextId, hssh, if_true, Bind.bind, Except.bind,
        Pure.pure, Except.pure, hswitch, hdest, hgetActive, hc2id]
    · rw [Registry.has]
      exact filter_ne_any_eq_false _ _
  · intro hssh
    unfold sshDisconnectBody
    rw [hd]
    simp [Registry.getActiveContextId, hssh, Bind.bind, Except.bind, Pure.pure, Except.pure]

/-- C7 witness: the amended theorem applied at a registry whose active context
is ssh-h: the ssh branch closes the transport, switches to local, destroys
ssh-h and rewires to local. -/
theorem sshDisconnect_routes_witness :
    (jsStartsWith wRegistry.activeContextId "ssh-" = true →
      ∃ reg2, sshDisconnectBody wCollab wRegistry =
          .ok (wCollab.status, reg2,
            [RegEvent.transportClosed, RegEvent.switched "local",
             RegEvent.destroyed wRegistry.activeContextId, RegEvent.rewired "local"]) ∧
        reg2.activeContextId = "local" ∧
        reg2.has wRegistry.activeContextId = false) ∧
    (jsStartsWith wRegistry.activeContextId "ssh-" = false →
      sshDisconnectBody wCollab wRegistry = .ok (wCollab.status, wRegistry,
        [RegEvent.transportClosed])) :=
  sshDisconnect_routes_on_active_prefix wCollab wRegistry rfl (by decide) (by decide)

/-- C8: every control channel operation among list, getActive, switch,
connect, disconnect and test, over every registry state and every collaborator
outcome, returns either a success response with data or a failure response
with an error string - no exception escapes the handler boundary. -/
theorem controlChannel_never_throws (o : SshCollab) (reg : Registry) (op : ControlOp) :
    (∃ d, handleControlOp o reg op = .success d) ∨
    (∃ e, handleControlOp o reg op = .failure e) := by
  cases op <;> simp only [handleControlOp] <;> exact runCaught_shape _

/-- C9: the persisted last-connection record copies exactly host, port,
username, auth method and private key path, and its password is absent for
every input, both in the main process handler and in the renderer connectSsh
path, even when the request carried a password. -/
theorem savedLastConnection_never_contains_password (c : SshLastConnection)
    (cfg : SshConnectionConfig) :
    (saveLastConnectionRecord c).password = none ∧
    (saveLastConnectionRecord c).host = c.host ∧
    (saveLastConnectionRecord c).port = c.port ∧
    (saveLastConnectionRecord c).username = c.username ∧
    (saveLastConnectionRecord c).authMethod = c.authMethod ∧
    (saveLastConnectionRecord c).privateKeyPath = c.privateKeyPath ∧
    (savedConnectionFromConfig cfg).password = none :=
  ⟨rfl, rfl, rfl, rfl, rfl, rfl, rfl⟩

/-- C10: on the no-cached-snapshot path with the backend switch resolved, the
run performs exactly two state updates: the first only raises the switching
flag and records the target, keeping the outgoing active context id for the
whole background fetch, and the second, final update is the one that both
sets the active id to the target and clears the switching flag - whether the
fetch succeeds or fails. -/
theorem switchContext_no_snapshot_defers_active_id (s : AppState) (target : String)
    (env : SwitchEnv)
    (hne : target ≠ s.activeContextId) (hsw : s.isContextSwitching = false)
    (hsave : env.saveResult = .ok ()) (hbs : env.backendSwitchResult = .ok ())
    (hload : env.loadResult = .ok none) :
    ∃ s1 sfin, (switchTrace s target env).1 = [s1, sfin] ∧
      s1.activeContextId = s.activeContextId ∧ s1.isContextSwitching = true ∧
      s1.targetContextId = some target ∧
      sfin.activeContextId = target ∧ sfin.isContextSwitching = false ∧
      sfin.targetContextId = none := by
  rcases hft : env.fetchResult with e | ⟨fp, frg⟩
  · use { s with isContextSwitching := true, targetContextId := some target },
      { getEmptyContextState { s with isContextSwitching := true, targetContextId := some target } with
        activeContextId := target, isContextSwitching := false, targetContextId := none }
    refine ⟨?_, rfl, rfl, rfl, rfl, rfl, rfl⟩
    simp [switchTrace, step1Result, hne, hsw, hsave, hbs, hload, hft,
      Bind.bind, Except.bind, Pure.pure, Except.pure]
  · use { s with isContextSwitching := true, targetContextId := some target },
      { getEmptyContextState { s with isContextSwitching := true, targetContextId := some target } with
        projects := fp, repositoryGroups := frg,
        activeContextId := target, isContextSwitching := false, targetContextId := none }
    refine ⟨?_, rfl, rfl, rfl, rfl, rfl, rfl⟩
    simp [switchTrace, step1Result, hne, hsw, hsave, hbs, hload, hft,
      Bind.bind, Except.bind, Pure.pure, Except.pure]

/-- C10 witness: the theorem applied at a concrete state, target and
environment with no cached snapshot. -/
theorem switchContext_no_snapshot_defers_active_id_witness :
    ∃ s1 sfin, (switchTrace baseState "ssh-h" envOkNoSnap).1 = [s1, sfin] ∧
      s1.activeContextId = baseState.activeContextId ∧ s1.isContextSwitching = true ∧
      s1.targetContextId = some "ssh-h" ∧
      sfin.activeContextId = "ssh-h" ∧ sfin.isContextSwitching = false ∧
      sfin.targetContextId = none :=
  switchContext_no_snapshot_defers_active_id baseState "ssh-h" envOkNoSnap
    (by decide) rfl rfl rfl rfl
